import Mathlib

/-!
Shallow embedding of `src/OlivaTransfer/app.py` (class `RSSapi`).

Python dicts are modelled as association lists (`List (String × String)`)
in insertion order; a Python dict has unique keys, assignment `d[k] = v`
replaces the value of an existing key in place or appends a new entry at
the end, and iteration (`d.items()`) walks entries in insertion order.

The HTTP boundary (`requests.request` inside `RSSapi._request`, lines
130-140) is modelled as an oracle `request : String → Except PyExc Response`:
`Except.ok` is a completed HTTP response (any status code), `Except.error`
is a raised transport exception (timeout, DNS failure, connection refused).
A raised Python exception is modelled with `Except.error` throughout, and
each operation returns the post-state alongside the result, so that "the
exception propagates out of the method with the state as mutated so far"
is expressible.
-/

namespace OlivaTransfer

/-- Python exceptions that the embedded code can raise: `TypeError`
(raised at line 69 by calling the dict `self.guids` as a function) and a
transport exception raised by the `requests` library inside `_request`. -/
inductive PyExc where
  | typeError
  | transport
deriving Repr, DecidableEq

/-- An HTTP response as `fetch` observes it: `response.status_code` and
`response.text` (lines 53-55). -/
structure Response where
  status_code : Nat
  text : String
deriving Repr, DecidableEq

/-- A Python dict from string keys to string values, in insertion order. -/
abbrev Dict := List (String × String)

/-- First-match lookup, `d[k]` on a dict (unique keys make any-match and
first-match agree). -/
def dictLookup (p : String) : Dict → Option String
  | [] => none
  | (k, v) :: d => if k = p then some v else dictLookup p d

/-- Dict assignment `d[k] = v`: replace the value at an existing key in
place, otherwise append the new entry at the end. -/
def dictSet : Dict → String → String → Dict
  | [], k, v => [(k, v)]
  | (k0, v0) :: d, k, v =>
    if k0 = k then (k, v) :: d else (k0, v0) :: dictSet d k v

/-- One parsed feed item (lines 81-87): the five extracted fields. -/
structure FeedItem where
  title : String
  link : String
  guid : String
  pubDate : String
  description : String
deriving Repr, DecidableEq

/-- The parsed-result snapshot `self.data`: platform name to the list of
extracted items, in insertion order. -/
abbrev ParsedData := List (String × List FeedItem)

/-- The destination-routing map `self.target`: platform name to groups and
users lists (shape from the `__main__` example, lines 147-152); the core
stores it and never interprets it. -/
abbrev TargetMap := List (String × List String × List String)

/-- The instance state of class `RSSapi` (lines 34-38): source registry,
destination routing, cursor store, raw-payload snapshot, parsed-result
snapshot. -/
structure RSSapi where
  rss_source : Option Dict
  target : Option TargetMap
  guids : Dict
  data_raw : Option Dict
  data : Option ParsedData
deriving Repr, DecidableEq

/-- The per-source loop of `fetch` (lines 48-57), building `tmp_rss`.
Line 50 skips a platform whose URL is the empty string (the URL looked up
by key equals the iterated URL since dict keys are unique); line 52 issues
the request — a raised transport exception propagates, aborting the loop;
lines 53-55 store `response.text` under the platform exactly when
`response.status_code == 200`, any other status is only printed. -/
def fetchGo (request : String → Except PyExc Response) :
    Dict → Dict → Except PyExc Dict
  | [], tmp_rss => .ok tmp_rss
  | (platform, url) :: rest, tmp_rss =>
    if url = "" then
      fetchGo request rest tmp_rss
    else
      match request url with
      | .error e => .error e
      | .ok response =>
        if response.status_code = 200 then
          fetchGo request rest (dictSet tmp_rss platform response.text)
        else
          fetchGo request rest tmp_rss

/-- Method `RSSapi.fetch` (lines 40-59). Lines 44-47: an absent argument
falls back to `self.rss_source`, and an absent or empty effective mapping
returns `None` with no mutation. Otherwise the loop of lines 48-57 runs
(`fetchGo`); only after it completes does line 58 assign `self.data_raw`,
so a transport exception raised mid-loop propagates with the state
unchanged. -/
def fetch (request : String → Except PyExc Response) (self : RSSapi)
    (rss_source_arg : Option Dict) : Except PyExc (Option Dict) × RSSapi :=
  match (match rss_source_arg with
         | none => self.rss_source
         | some d => some d) with
  | none => (.ok none, self)
  | some rss_source =>
    if rss_source.length = 0 then (.ok none, self)
    else
      match fetchGo request rss_source [] with
      | .error e => (.error e, self)
      | .ok tmp_rss => (.ok (some tmp_rss), { self with data_raw := some tmp_rss })

/-- The per-source loop of `parse` (lines 68-89), over
`self.data_raw.items()`. The first statement of each iteration,
`self.guids(platform)` (line 69), applies the dict `self.guids` as a
function, which raises `TypeError` at once. So for a nonempty snapshot the
loop raises on its very first iteration — before `ET.fromstring` (line 71)
parses any XML and before any mutation of `self.guids` or append to
`tmp_data`. Lines 70-89 are unreachable. -/
def parseLoop : Dict → Except PyExc ParsedData
  | [] => .ok []
  | _ :: _ => .error .typeError

/-- Method `RSSapi.parse` (lines 61-91). Lines 65-66: an absent or empty
raw-payload snapshot returns `None` with no mutation. Otherwise the loop
of lines 68-89 runs (`parseLoop`); its raised `TypeError` propagates with
the state unchanged, and the assignment to `self.data` (line 90) would run
only if the loop completed. -/
def parse (self : RSSapi) : Except PyExc (Option ParsedData) × RSSapi :=
  match self.data_raw with
  | none => (.ok none, self)
  | some data_raw =>
    if data_raw.length = 0 then (.ok none, self)
    else
      match parseLoop data_raw with
      | .error e => (.error e, self)
      | .ok tmp_data => (.ok (some tmp_data), { self with data := some tmp_data })

/-- Method `RSSapi.update` (lines 93-103): wholesale replacement of
`rss_source` and/or `target` when the argument is non-None. -/
def update (self : RSSapi) (rss_source_arg : Option Dict)
    (target_arg : Option TargetMap) : RSSapi :=
  { self with
    rss_source := match rss_source_arg with
                  | none => self.rss_source
                  | some d => some d
    target := match target_arg with
              | none => self.target
              | some t => some t }

/-- The spec's notion of an HTTP success status ("success status",
"non-2xx ... treated as failure"): any 2xx code. Stated from the spec's
words, to be compared with the source's `status_code == 200` test at
line 53. -/
def isSuccessStatusSpec (s : Nat) : Bool :=
  200 ≤ s && s < 300

/-! ### Helper lemmas about dicts and the fetch loop -/

theorem dictLookup_dictSet (d : Dict) (k v p : String) :
    dictLookup p (dictSet d k v) = if k = p then some v else dictLookup p d := by
  induction d with
  | nil => simp [dictSet, dictLookup]
  | cons hd tl ih =>
    obtain ⟨k0, v0⟩ := hd
    by_cases hk : k0 = k
    · subst hk
      by_cases hp : k0 = p <;> simp [dictSet, dictLookup, hp]
    · by_cases hp : k0 = p
      · subst hp
        have : ¬ k = k0 := fun h => hk h.symm
        simp [dictSet, dictLookup, hk, this]
      · simp [dictSet, dictLookup, hk, hp, ih]

theorem fetchGo_append (request : String → Except PyExc Response)
    (a b tmp : Dict) :
    fetchGo request (a ++ b) tmp =
      match fetchGo request a tmp with
      | .error e => .error e
      | .ok t => fetchGo request b t := by
  induction a generalizing tmp with
  | nil => simp [fetchGo]
  | cons hd tl ih =>
    obtain ⟨platform, url⟩ := hd
    by_cases hu : url = ""
    · simp [fetchGo, hu, ih]
    · cases hreq : request url with
      | error e => simp [fetchGo, hu, hreq]
      | ok response =>
        by_cases hs : response.status_code = 200 <;>
          simp [fetchGo, hu, hreq, hs, ih]

theorem fetchGo_lookup_notin (request : String → Except PyExc Response)
    (src : Dict) :
    ∀ tmp out : Dict, ∀ p : String,
      fetchGo request src tmp = .ok out → p ∉ src.map Prod.fst →
      dictLookup p out = dictLookup p tmp := by
  induction src with
  | nil =>
    intro tmp out p h _
    simp [fetchGo] at h
    subst h; rfl
  | cons hd tl ih =>
    intro tmp out p h hnot
    obtain ⟨platform, url⟩ := hd
    simp only [List.map_cons, List.mem_cons] at hnot
    push_neg at hnot
    obtain ⟨hne, hnot⟩ := hnot
    by_cases hu : url = ""
    · simp only [fetchGo, hu, if_pos rfl] at h
      exact ih tmp out p h hnot
    · cases hreq : request url with
      | error e => simp [fetchGo, hu, hreq] at h
      | ok response =>
        by_cases hs : response.status_code = 200
        · simp [fetchGo, hu, hreq, hs] at h
          have := ih (dictSet tmp platform response.text) out p h hnot
          rw [this, dictLookup_dictSet, if_neg (fun hpp => hne hpp.symm)]
        · simp [fetchGo, hu, hreq, hs] at h
          exact ih tmp out p h hnot

/-! ### Concrete states used by the per-claim evaluations -/

/-- State for the C1 scenario: registry feedA, cursor store seeded with
the empty cursor, raw snapshot holding a payload whose items carry guids
g3, g2, g1 in document order. -/
def stC1 : RSSapi :=
  { rss_source := some [("feedA", "http://x/rss")]
    target := none
    guids := [("feedA", "")]
    data_raw := some [("feedA", "<rss><channel><item><guid>g3</guid></item><item><guid>g2</guid></item><item><guid>g1</guid></item></channel></rss>")]
    data := none }

/-- State for the C3 scenario: source A holds malformed XML (truncated
document), source B holds valid XML with one item. -/
def stC3 : RSSapi :=
  { rss_source := some [("A", "http://a/rss"), ("B", "http://b/rss")]
    target := none
    guids := []
    data_raw := some [("A", "<rss><item"), ("B", "<rss><channel><item><guid>b1</guid></item></channel></rss>")]
    data := none }

/-- State for the C5 scenario: the cursor store is empty, so feedA has no
cursor entry when its payload is parsed. -/
def stC5 : RSSapi :=
  { rss_source := some [("feedA", "http://x/rss")]
    target := none
    guids := []
    data_raw := some [("feedA", "<rss><channel><item><guid>g1</guid></item></channel></rss>")]
    data := none }

/-- State for the C6 scenario: two new items with guids g2, g1 in document
order, cursor initially empty. -/
def stC6 : RSSapi :=
  { rss_source := some [("feedA", "http://x/rss")]
    target := none
    guids := [("feedA", "")]
    data_raw := some [("feedA", "<rss><channel><item><guid>g2</guid></item><item><guid>g1</guid></item></channel></rss>")]
    data := none }

/-- State for the C9 scenario: the single item has title, link, guid and
pubDate nodes but no description node. -/
def stC9 : RSSapi :=
  { rss_source := some [("feedA", "http://x/rss")]
    target := none
    guids := [("feedA", "")]
    data_raw := some [("feedA", "<rss><channel><item><title>t1</title><link>l1</link><guid>g1</guid><pubDate>d1</pubDate></item></channel></rss>")]
    data := none }

/-- State used by the witness of C4: any nonempty raw snapshot. -/
def stC4w : RSSapi :=
  { rss_source := none
    target := none
    guids := []
    data_raw := some [("p", "<rss></rss>")]
    data := none }

/-! ### Claim theorems -/

/-- Claim C1 (code bug): the claim says the first parse over the g3,g2,g1
payload with cursor "" returns all three items and sets the cursor to g1,
and a second parse returns []. The code instead raises `TypeError` at line
69 (`self.guids(platform)` calls a dict) on the first parse, before any
XML is read: evaluated at the C1 scenario, parse raises and leaves the
state unchanged, so no first-parse item list and no cursor update ever
happen. -/
theorem claimC1_first_parse_raises :
    parse stC1 = (.error .typeError, stC1) := rfl

/-- Claim C3 (code bug): the claim says parse of a snapshot with malformed
A and valid B returns B's items, excludes A, and lets no exception escape.
Evaluated at the C3 scenario, parse raises `TypeError` at line 69 before
any XML is parsed (and `ET.fromstring` at line 71 is not wrapped in any
handler either), so an exception escapes and no source yields items. -/
theorem claimC3_parse_batch_raises :
    parse stC3 = (.error .typeError, stC3) := rfl

/-- Claim C5 (code bug): the claim says a source with no cursor entry gets
its cursor initialized to "" before its items are processed. The
initialization test at line 69 is `self.guids(platform)`, a call on a
dict, which raises `TypeError`: evaluated at the C5 scenario (empty cursor
store), parse raises and the cursor store still has no entry for feedA. -/
theorem claimC5_cursor_init_raises :
    parse stC5 = (.error .typeError, stC5) ∧ dictLookup "feedA" stC5.guids = none :=
  ⟨rfl, rfl⟩

/-- Claim C6 (code bug): the claim says that after parsing a source with N
new items the cursor equals the guid of the last item processed in
document order (g1 in the C6 scenario). Parse never reaches the item loop:
it raises `TypeError` at line 69, leaving the cursor at "". -/
theorem claimC6_cursor_advance_raises :
    parse stC6 = (.error .typeError, stC6) ∧ dictLookup "feedA" stC6.guids = some "" :=
  ⟨rfl, rfl⟩

/-- Claim C9 (code bug): the claim says every returned item record has the
five string fields, an absent node defaulting to "". The extraction code
(lines 76-87) is unreachable: parse raises `TypeError` at line 69 on any
nonempty snapshot (and, were line 69 repaired, line 74 would raise
`TypeError` again by asking whether an `Element` is contained in a
string), so no item record is ever produced. Evaluated at the C9 scenario
(item lacking a description node), parse raises. -/
theorem claimC9_field_extraction_raises :
    parse stC9 = (.error .typeError, stC9) := rfl

/-- Claim C4 (confirmed): for every state whose raw-payload snapshot is
nonempty, parse raises `TypeError` — line 69 invokes the dict
`self.guids` as a function on the first loop iteration, before any XML is
parsed — leaving the state unchanged; hence parse never returns a non-null
parsed result for a nonempty snapshot, whatever the payload or the cursor
store contains. -/
theorem claimC4_parse_nonempty_typeError :
    ∀ (self : RSSapi) (platform raw : String) (rest : Dict),
      self.data_raw = some ((platform, raw) :: rest) →
      parse self = (.error .typeError, self) ∧
        ∀ (out : ParsedData) (s2 : RSSapi), parse self ≠ (.ok (some out), s2) := by
  intro self platform raw rest hraw
  have hp : parse self = (.error .typeError, self) := by
    simp [parse, hraw, parseLoop]
  refine ⟨hp, ?_⟩
  intro out s2 hc
  rw [hp] at hc
  simp at hc

/-- Witness for C4 at a concrete nonempty snapshot. -/
theorem claimC4_witness :
    parse stC4w = (.error .typeError, stC4w) :=
  (claimC4_parse_nonempty_typeError stC4w "p" "<rss></rss>" [] rfl).1

/-- Claim C7 (confirmed): with no sources configured or supplied — fetch
called with an absent argument while the registry is absent or empty, or
with an empty mapping — fetch returns None without raising and without
mutation; and with no raw-payload snapshot, parse returns None without
raising and without mutation. -/
theorem claimC7_empty_returns_null :
    ∀ (request : String → Except PyExc Response) (self : RSSapi),
      (self.rss_source = none ∨ self.rss_source = some [] →
        fetch request self none = (.ok none, self)) ∧
      fetch request self (some []) = (.ok none, self) ∧
      (self.data_raw = none → parse self = (.ok none, self)) := by
  intro request self
  refine ⟨?_, ?_, ?_⟩
  · rintro (h | h) <;> simp [fetch, h]
  · simp [fetch]
  · intro h; simp [parse, h]

/-- Oracle that raises a transport exception on every URL; used only by
witnesses of the empty-configuration claim, where no request is issued. -/
def reqDown : String → Except PyExc Response :=
  fun _ => Except.error PyExc.transport

/-- State with no registry, no cursor entries, no snapshots. -/
def stEmpty : RSSapi :=
  { rss_source := none, target := none, guids := [], data_raw := none, data := none }

/-- Witness for C7 at the empty state. -/
theorem claimC7_witness :
    fetch reqDown stEmpty none = (.ok none, stEmpty) ∧
    fetch reqDown stEmpty (some []) = (.ok none, stEmpty) ∧
    parse stEmpty = (.ok none, stEmpty) :=
  ⟨(claimC7_empty_returns_null reqDown stEmpty).1 (Or.inl rfl),
   (claimC7_empty_returns_null reqDown stEmpty).2.1,
   (claimC7_empty_returns_null reqDown stEmpty).2.2 rfl⟩

/-- Every fetch run lands in one of three shapes: early None with the
state untouched, a propagated exception with the state untouched, or a
completed batch whose only state change is the wholesale replacement of
`data_raw` (line 58). -/
theorem fetch_cases (request : String → Except PyExc Response)
    (self : RSSapi) (arg : Option Dict) :
    fetch request self arg = (.ok none, self) ∨
    (∃ e, fetch request self arg = (.error e, self)) ∨
    (∃ out, fetch request self arg =
      (.ok (some out), { self with data_raw := some out })) := by
  rcases arg with _ | d
  · cases hs : self.rss_source with
    | none => left; simp [fetch, hs]
    | some d =>
      by_cases hl : d.length = 0
      · left; simp [fetch, hs, hl]
      · cases hg : fetchGo request d [] with
        | error e => right; left; exact ⟨e, by simp [fetch, hs, hl, hg]⟩
        | ok tmp => right; right; exact ⟨tmp, by simp [fetch, hs, hl, hg]⟩
  · by_cases hl : d.length = 0
    · left; simp [fetch, hl]
    · cases hg : fetchGo request d [] with
      | error e => right; left; exact ⟨e, by simp [fetch, hl, hg]⟩
      | ok tmp => right; right; exact ⟨tmp, by simp [fetch, hl, hg]⟩

/-- Claim C10 (confirmed): fetch leaves the registry, the destination
routing, the cursor store and the parsed-result snapshot unchanged in
every run; when it returns None or propagates an exception mid-batch the
whole state — in particular the previous raw-payload snapshot — is
retained unchanged; and when it completes, the raw-payload snapshot is
replaced wholesale by the finished batch result. -/
theorem claimC10_fetch_frame :
    ∀ (request : String → Except PyExc Response) (self : RSSapi)
      (arg : Option Dict) (res : Except PyExc (Option Dict)) (s2 : RSSapi),
      fetch request self arg = (res, s2) →
      s2.rss_source = self.rss_source ∧ s2.target = self.target ∧
      s2.guids = self.guids ∧ s2.data = self.data ∧
      (∀ e, res = .error e → s2 = self) ∧
      (res = .ok none → s2 = self) ∧
      (∀ out, res = .ok (some out) → s2.data_raw = some out) := by
  intro request self arg res s2 h
  rcases fetch_cases request self arg with hc | ⟨e, hc⟩ | ⟨out, hc⟩ <;>
    rw [hc] at h <;> injection h with h1 h2 <;> subst h1 <;> subst h2
  · refine ⟨rfl, rfl, rfl, rfl, ?_, fun _ => rfl, ?_⟩
    · intro e he; simp at he
    · intro out hout; simp at hout
  · refine ⟨rfl, rfl, rfl, rfl, fun _ _ => rfl, ?_, ?_⟩
    · intro he; simp at he
    · intro out hout; simp at hout
  · refine ⟨rfl, rfl, rfl, rfl, ?_, ?_, ?_⟩
    · intro e he; simp at he
    · intro he; simp at he
    · intro out' hout
      have : out = out' := by simpa using hout
      rw [← this]

/-- State used by the witness of C10: a registry with one source and a
previous raw snapshot. -/
def stC10w : RSSapi :=
  { rss_source := some [("A", "http://a/rss")]
    target := none
    guids := [("A", "g0")]
    data_raw := some [("A", "oldA")]
    data := none }

/-- Witness for C10: a transport exception on the single source leaves the
whole state, previous snapshot included, unchanged. -/
theorem claimC10_witness :
    (fetch reqDown stC10w none).2 = stC10w :=
  (claimC10_fetch_frame reqDown stC10w none (.error .transport) stC10w
    rfl).2.2.2.2.1 PyExc.transport rfl

/-- Oracle for the C2 scenario: source A's URL raises a transport
exception, source B's URL answers 200 with body xmlB. -/
def reqC2 : String → Except PyExc Response := fun u =>
  if u = "http://b/rss" then Except.ok { status_code := 200, text := "xmlB" }
  else Except.error PyExc.transport

/-- State for the C2 scenario: two configured sources A and B, both with
non-empty URLs. -/
def stC2 : RSSapi :=
  { rss_source := some [("A", "http://a/rss"), ("B", "http://b/rss")]
    target := none
    guids := []
    data_raw := none
    data := none }

/-- Counterexample to claim C2 as stated: source B has a non-empty URL and
its request would succeed with status 200, yet fetching the pair aborts on
source A's transport exception — fetch propagates the exception and
returns no payload at all, so B appears in no returned payload. -/
theorem claimC2_counterexample :
    reqC2 "http://b/rss" = Except.ok { status_code := 200, text := "xmlB" } ∧
    fetch reqC2 stC2 none = (.error .transport, stC2) :=
  ⟨rfl, rfl⟩

/-- Claim C2 as amended: the per-source loop of fetch has no exception
handler, so a transport exception raised for one source propagates out of
fetch and aborts the batch — whatever sources remain after the failing one
are never requested (the result does not depend on them), no payload is
returned, and the state, raw-payload snapshot included, is unchanged. -/
theorem claimC2_transport_aborts_batch :
    ∀ (request : String → Except PyExc Response) (self : RSSapi)
      (pre : Dict) (platform url : String) (rest tmp : Dict) (e : PyExc),
      fetchGo request pre [] = .ok tmp → url ≠ "" → request url = .error e →
      fetch request self (some (pre ++ (platform, url) :: rest)) = (.error e, self) := by
  intro request self pre platform url rest tmp e hpre hu hreq
  have hlen : ¬ (pre ++ (platform, url) :: rest).length = 0 := by
    simp [List.length_append]
  have hgo : fetchGo request (pre ++ (platform, url) :: rest) [] = .error e := by
    rw [fetchGo_append, hpre]
    simp [fetchGo, hu, hreq]
  simp [fetch, hlen, hgo]

/-- Witness for the amended C2: concretely, the failing source A aborts
the batch with source B pending. -/
theorem claimC2_witness :
    fetch reqC2 stC2 (some [("A", "http://a/rss"), ("B", "http://b/rss")]) =
      (.error .transport, stC2) :=
  claimC2_transport_aborts_batch reqC2 stC2 [] "A" "http://a/rss"
    [("B", "http://b/rss")] [] PyExc.transport rfl (by decide) rfl

/-- Oracle for the C8 counterexample: the single source answers with
status 201 — a 2xx success status that is not 200. -/
def reqC8 : String → Except PyExc Response := fun u =>
  if u = "http://a/rss" then Except.ok { status_code := 201, text := "xmlA" }
  else Except.error PyExc.transport

/-- State for the C8 counterexample: one configured source A. -/
def stC8 : RSSapi :=
  { rss_source := some [("A", "http://a/rss")]
    target := none
    guids := []
    data_raw := none
    data := none }

/-- Counterexample to claim C8 as stated: source A's response carries
status 201, a success (2xx) status, yet its text is not included — line 53
tests `status_code == 200` exactly, so fetch returns an empty payload with
A absent. -/
theorem claimC8_counterexample :
    isSuccessStatusSpec 201 = true ∧
    reqC8 "http://a/rss" = Except.ok { status_code := 201, text := "xmlA" } ∧
    fetch reqC8 stC8 none = (.ok (some []), { stC8 with data_raw := some [] }) ∧
    dictLookup "A" [] = none :=
  ⟨rfl, rfl, rfl, rfl⟩

/-- Claim C8 as amended: for every source of the batch with a non-empty
URL, when fetch completes, the source's text is present in the returned
payload exactly when its request completed with status code exactly 200
(so 2xx codes other than 200 are also skipped); any other status is only
printed and the loop continues with the remaining sources. -/
theorem claimC8_included_iff_status200 :
    ∀ (request : String → Except PyExc Response) (self : RSSapi)
      (src : Dict) (platform url : String) (out : Dict) (s2 : RSSapi),
      (src.map Prod.fst).Nodup → (platform, url) ∈ src → url ≠ "" →
      fetch request self (some src) = (.ok (some out), s2) →
      dictLookup platform out =
        (match request url with
         | .ok r => if r.status_code = 200 then some r.text else none
         | .error _ => none) := by
  intro request self src platform url out s2 hnd hmem hu hfetch
  have hne : src ≠ [] := List.ne_nil_of_mem hmem
  have hlen : ¬ src.length = 0 := fun h => hne (List.eq_nil_of_length_eq_zero h)
  have hgo : fetchGo request src [] = .ok out := by
    cases hg : fetchGo request src [] with
    | error e => simp [fetch, hlen, hg] at hfetch
    | ok tmp =>
      simp [fetch, hlen, hg] at hfetch
      rw [← hfetch.1]
  obtain ⟨l₁, l₂, rfl⟩ := List.append_of_mem hmem
  have hmap : (l₁ ++ (platform, url) :: l₂).map Prod.fst =
      l₁.map Prod.fst ++ platform :: l₂.map Prod.fst := by simp
  rw [hmap] at hnd
  obtain ⟨-, hnd2, hdisj⟩ := List.nodup_append.mp hnd
  have hnotl₂ : platform ∉ l₂.map Prod.fst := (List.nodup_cons.mp hnd2).1
  have hnotl₁ : platform ∉ l₁.map Prod.fst :=
    fun hmem₁ => hdisj hmem₁ (List.mem_cons_self _ _)
  rw [fetchGo_append] at hgo
  cases hpre : fetchGo request l₁ [] with
  | error e => rw [hpre] at hgo; simp at hgo
  | ok tmp₁ =>
    rw [hpre] at hgo
    simp only [fetchGo, if_neg hu] at hgo
    cases hreq : request url with
    | error e => rw [hreq] at hgo; simp at hgo
    | ok r =>
      rw [hreq] at hgo
      have hgo' : (if r.status_code = 200 then
          fetchGo request l₂ (dictSet tmp₁ platform r.text)
        else fetchGo request l₂ tmp₁) = Except.ok out := hgo
      show dictLookup platform out =
        (if r.status_code = 200 then some r.text else none)
      by_cases hs : r.status_code = 200
      · rw [if_pos hs] at hgo'
        rw [fetchGo_lookup_notin request l₂ _ out platform hgo' hnotl₂,
          dictLookup_dictSet, if_pos rfl, if_pos hs]
      · rw [if_neg hs] at hgo'
        rw [fetchGo_lookup_notin request l₂ _ out platform hgo' hnotl₂,
          fetchGo_lookup_notin request l₁ _ tmp₁ platform hpre hnotl₁,
          if_neg hs]
        rfl

/-- Oracle for the C8 witness: source A answers 200, source B answers 404. -/
def reqC8w : String → Except PyExc Response := fun u =>
  if u = "http://a/rss" then Except.ok { status_code := 200, text := "xmlA" }
  else if u = "http://b/rss" then Except.ok { status_code := 404, text := "xmlB" }
  else Except.error PyExc.transport

/-- State for the C8 witness: two configured sources A and B. -/
def stC8w : RSSapi :=
  { rss_source := some [("A", "http://a/rss"), ("B", "http://b/rss")]
    target := none
    guids := []
    data_raw := none
    data := none }

/-- Witness for the amended C8: in the completed batch, B (status 404) is
absent from the payload that contains only A (status 200). -/
theorem claimC8_witness :
    dictLookup "B" [("A", "xmlA")] =
      (match reqC8w "http://b/rss" with
       | .ok r => if r.status_code = 200 then some r.text else none
       | .error _ => none) :=
  claimC8_included_iff_status200 reqC8w stC8w
    [("A", "http://a/rss"), ("B", "http://b/rss")] "B" "http://b/rss"
    [("A", "xmlA")] { stC8w with data_raw := some [("A", "xmlA")] }
    (by decide) (by decide) (by decide) rfl

end OlivaTransfer
